import Mathlib

/-!
Verification development for the lise rendering engine.

Shallow embedding of the parts of the repository the checked properties
talk about: the generic free-slot container (src/container.rs), the scene
graph tree and its iterator (src/node.rs), the swapchain selection policy,
acquire and present operations (src/renderer/swapchain.rs), and the frame
pipeline controller (src/renderer.rs) including its teardown order.

Device-side behaviour (which image an acquire returns, whether a present
reports out-of-date, ...) is a parameter of each embedded operation: the
host code is deterministic given those responses, and the embedding
records the host-visible operations it issues as an explicit trace.
-/

namespace Lise

/-! ## Free-slot container, src/container.rs

`data` models the backing allocation: `none` stands for a slot whose
memory has never been written. `free_indices` mirrors the bool array of
the same length. `grow` models the 1.5x growth factor; the source
computes `(1.5f32 * cap as f32) as usize`, which equals `3 * cap / 2`
for every capacity small enough for f32 to be exact there. -/

structure FreeList (T : Type) where
  cap : Nat
  data : List (Option T)
  free_indices : List Bool
deriving DecidableEq

def FreeList.with_capacity (T : Type) (cap : Nat) : FreeList T :=
  ⟨cap, List.replicate cap none, List.replicate cap true⟩

-- container.rs:135-143: first index whose free flag is true.
def FreeList.find_empty_index {T : Type} (fl : FreeList T) : Option Nat :=
  (List.range fl.cap).find? (fun i => fl.free_indices.getD i false)

-- container.rs:85-133: realloc keeps old contents, new tail flags set true.
def FreeList.grow {T : Type} (fl : FreeList T) : FreeList T :=
  let new_cap := if fl.cap = 0 then 1 else if fl.cap = 1 then 2 else 3 * fl.cap / 2
  ⟨new_cap,
   fl.data ++ List.replicate (new_cap - fl.cap) none,
   fl.free_indices ++ List.replicate (new_cap - fl.cap) true⟩

-- container.rs:61-73. Note the source writes `true` into
-- free_indices[insert_index] after placing the value (line 69).
def FreeList.push_first {T : Type} (fl : FreeList T) (value : T) : Nat × FreeList T :=
  match fl.find_empty_index with
  | some insert_index =>
    (insert_index,
     { fl with
        data := fl.data.set insert_index (some value),
        free_indices := fl.free_indices.set insert_index true })
  | none =>
    let fl := fl.grow
    let insert_index := fl.find_empty_index.getD 0
    (insert_index,
     { fl with
        data := fl.data.set insert_index (some value),
        free_indices := fl.free_indices.set insert_index true })

/-! ## Scene graph, src/node.rs

The Rust node stores `first_child` and `next_sibling` links; a node's
children are the chain `first_child, first_child.next_sibling, ...`,
modelled here as the list `children` in the same order. `add_child`
appends at the end of the sibling chain (node.rs:24-38), i.e. appends to
the list. The iterator's state is the current node, modelled as the path
of child indices from the root; `parent` pointers correspond to path
shortening and the `ptr::eq(parent, root)` test to the path being empty. -/

inductive RNode where
  | mk (label : Nat) (children : List RNode)

def RNode.label : RNode → Nat
  | RNode.mk n _ => n

def RNode.children : RNode → List RNode
  | RNode.mk _ cs => cs

def RNode.add_child (t c : RNode) : RNode :=
  RNode.mk t.label (t.children ++ [c])

def subtreeAt : RNode → List Nat → Option RNode
  | t, [] => some t
  | t, i :: p =>
    match t.children.get? i with
    | some c => subtreeAt c p
    | none => none

-- Path of the node's next sibling, if it has one (its parent has a
-- further child after it).
def nextSibPath (t : RNode) (p : List Nat) : Option (List Nat) :=
  match p.getLast? with
  | none => none
  | some i =>
    match subtreeAt t p.dropLast with
    | none => none
    | some par => if i + 1 < par.children.length then some (p.dropLast ++ [i + 1]) else none

-- node.rs:82-92, one iteration of the climbing loop for ancestor `a`:
-- the ptr::eq(parent, root) test clears the stored location, then a
-- next sibling of the ancestor overwrites it; the loop never breaks.
def ancestorStep (t : RNode) (acc : Option (List Nat)) (a : List Nat) : Option (List Nat) :=
  let acc := if a = [] then none else acc
  match nextSibPath t a with
  | some s => some s
  | none => acc

-- Proper ancestors of p, nearest first (immediate parent down to root).
def ancestorPathsDesc (p : List Nat) : List (List Nat) :=
  ((List.range p.length).reverse).map (fun k => p.take k)

def climb (t : RNode) (p : List Nat) : Option (List Nat) :=
  (ancestorPathsDesc p).foldl (ancestorStep t) (some p)

-- node.rs:70-99: advance to first child, else next sibling, else climb
-- when a parent exists, else stop.
def iterNext (t : RNode) (p : List Nat) : Option (List Nat) :=
  match subtreeAt t p with
  | none => none
  | some cur =>
    if 0 < cur.children.length then some (p ++ [0])
    else
      match nextSibPath t p with
      | some s => some s
      | none => if p = [] then none else climb t p

def iterFrom (t : RNode) : Nat → Option (List Nat) → List Nat
  | 0, _ => []
  | _ + 1, none => []
  | fuel + 1, some p =>
    match subtreeAt t p with
    | none => []
    | some cur => cur.label :: iterFrom t fuel (iterNext t p)

-- Labels yielded by Node::iter, starting at the root.
def iterLabels (t : RNode) (fuel : Nat) : List Nat :=
  iterFrom t fuel (some [])

/-- Modelled from the spec: a depth-first preorder traversal of the tree,
visiting each node before its children and children in insertion order.
Stack-based with fuel; fuel at least the node count is enough. -/
def specDFSAux : Nat → List RNode → List Nat
  | 0, _ => []
  | _ + 1, [] => []
  | fuel + 1, RNode.mk n cs :: rest => n :: specDFSAux fuel (cs ++ rest)

def specDFS (t : RNode) (fuel : Nat) : List Nat :=
  specDFSAux fuel [t]

/-! ## Swapchain selection policy, src/renderer/swapchain.rs:275-300 -/

inductive PresentMode where
  | immediate
  | mailbox
  | fifo
  | fifoRelaxed
deriving DecidableEq

-- swapchain.rs:292-300.
def choose_swapchain_surface_present_mode (available_present_modes : List PresentMode) :
    PresentMode :=
  if PresentMode.mailbox ∈ available_present_modes then PresentMode.mailbox
  else if PresentMode.fifo ∈ available_present_modes then PresentMode.fifo
  else PresentMode.immediate

structure SurfaceFormat where
  format : Nat
  color_space : Nat
deriving DecidableEq

def FORMAT_UNDEFINED : Nat := 0
def FORMAT_B8G8R8A8_UNORM : Nat := 44
def COLOR_SPACE_SRGB_NONLINEAR : Nat := 0

def preferredSurfaceFormat : SurfaceFormat :=
  ⟨FORMAT_B8G8R8A8_UNORM, COLOR_SPACE_SRGB_NONLINEAR⟩

-- swapchain.rs:275-290; `none` models the index panic on an empty list.
def choose_swapchain_surface_format (available_formats : List SurfaceFormat) :
    Option SurfaceFormat :=
  match available_formats with
  | [] => none
  | f0 :: _ =>
    if available_formats.length = 1 ∧ f0.format = FORMAT_UNDEFINED then
      some preferredSurfaceFormat
    else
      some ((available_formats.find? (fun f =>
        decide (f.format = FORMAT_B8G8R8A8_UNORM ∧
          f.color_space = COLOR_SPACE_SRGB_NONLINEAR))).getD f0)

/-! ## Frame pipeline controller, src/renderer.rs

Semaphores and fences are identified by host-visible handles: slot `i`
owns image_available_semaphore `10*i`, queue_complete_semaphore
`10*i+1`, in_flight_fence `10*i+2`. Command buffers are identified by
their index. `fence_signaled` tracks, per slot, the host-known state of
the slot's in_flight_fence: true at creation (FenceCreateFlags::SIGNALED,
renderer.rs:61-65), false after reset_fences. Device responses to
acquire and present are parameters; host-visible calls are recorded as
a `DeviceOp` trace. -/

def MAX_FRAMES_IN_FLIGHT : Nat := 2

structure SyncObject where
  image_available_semaphore : Nat
  queue_complete_semaphore : Nat
  in_flight_fence : Nat
deriving DecidableEq

def SyncObject.null : SyncObject := ⟨0, 0, 0⟩

def mkSyncObject (i : Nat) : SyncObject := ⟨10 * i, 10 * i + 1, 10 * i + 2⟩

structure Swapchain where
  out_of_date : Bool
  image_count : Nat
deriving DecidableEq

inductive AcquireResult where
  | ok (image_index : Nat) (suboptimal : Bool)
  | errOutOfDate
  | errOther
deriving DecidableEq

inductive PresentResult where
  | ok (suboptimal : Bool)
  | errOutOfDate
  | errOther
deriving DecidableEq

inductive PanicMsg where
  | failedToPresentSwapchain
deriving DecidableEq

inductive DeviceOp where
  | waitFence (fence : Nat)
  | resetFence (fence : Nat)
  | acquireImage (signal_semaphore : Nat)
  | beginCommandBuffer (cb : Nat)
  | recordCommands (cb : Nat)
  | endCommandBuffer (cb : Nat)
  | queueSubmit (wait_semaphores : List Nat) (signal_semaphores : List Nat)
      (fence : Nat) (cb : Nat)
  | presentImage (wait_semaphore : Nat) (image_index : Nat)
  | waitIdle
  | createSwapchain
deriving DecidableEq

-- swapchain.rs:139-159.
def Swapchain.acquire_next_image_index (s : Swapchain) (result : AcquireResult) :
    Swapchain × Option Nat :=
  match result with
  | AcquireResult.ok image_index _ => (s, some image_index)
  | AcquireResult.errOutOfDate => ({ s with out_of_date := true }, none)
  | AcquireResult.errOther => (s, none)

-- swapchain.rs:161-186: Ok(true) returns true; out-of-date sets the
-- flag and returns false; any other error panics.
def Swapchain.present (s : Swapchain) (render_complete_semaphore : Nat)
    (present_image_index : Nat) (result : PresentResult) :
    List DeviceOp × Except PanicMsg (Swapchain × Bool) :=
  ([DeviceOp.presentImage render_complete_semaphore present_image_index],
   match result with
   | PresentResult.ok true => Except.ok (s, true)
   | PresentResult.ok false => Except.ok (s, false)
   | PresentResult.errOutOfDate => Except.ok ({ s with out_of_date := true }, false)
   | PresentResult.errOther => Except.error PanicMsg.failedToPresentSwapchain)

structure Renderer where
  command_buffers : List Nat
  current_image_index : Nat
  current_frame : Nat
  sync_objects : List SyncObject
  fence_signaled : List Bool
  swapchain : Swapchain
deriving DecidableEq

-- renderer.rs:35-88; `image_count` is the swapchain's image count, and
-- one command buffer is created per image.
def Renderer.new (image_count : Nat) : Renderer :=
  ⟨List.range image_count, 0, 0,
   (List.range MAX_FRAMES_IN_FLIGHT).map mkSyncObject,
   List.replicate MAX_FRAMES_IN_FLIGHT true,
   ⟨false, image_count⟩⟩

-- renderer.rs:209-215: returns the current slot's sync object and only
-- then advances the frame counter.
def Renderer.next_sync_object (r : Renderer) : SyncObject × Renderer :=
  (r.sync_objects.getD r.current_frame SyncObject.null,
   { r with current_frame := (r.current_frame + 1) % MAX_FRAMES_IN_FLIGHT })

-- renderer.rs:217-219.
def Renderer.current_sync_object (r : Renderer) : SyncObject :=
  r.sync_objects.getD r.current_frame SyncObject.null

-- True when a wait_for_fences on the current slot's fence would block
-- until the device signals it (the host knows it unsignaled).
def Renderer.wait_would_block (r : Renderer) : Bool :=
  !(r.fence_signaled.getD r.current_frame false)

-- renderer.rs:92-157. Returns (state, issued host calls, frame skipped).
-- `slot` remembers the pre-advance frame index for the fence-state
-- bookkeeping of reset_fences.
def Renderer.begin_frame (r : Renderer) (acquire_result : AcquireResult) :
    Renderer × List DeviceOp × Bool :=
  let slot := r.current_frame
  let so := (r.next_sync_object).1
  let r := (Renderer.next_sync_object r).2
  let ops := [DeviceOp.waitFence so.in_flight_fence,
              DeviceOp.acquireImage so.image_available_semaphore]
  let (sc, acquired) := r.swapchain.acquire_next_image_index acquire_result
  let r := { r with swapchain := sc }
  match acquired with
  | none => (r, ops, true)
  | some next_index =>
    let r := { r with
      current_image_index := next_index,
      fence_signaled := r.fence_signaled.set slot false }
    let cb := r.command_buffers.getD r.current_frame 0
    (r, ops ++ [DeviceOp.resetFence so.in_flight_fence,
                DeviceOp.beginCommandBuffer cb,
                DeviceOp.recordCommands cb], false)

-- renderer.rs:159-205. The operations are issued before the present
-- result is inspected, so they are reported also on the panic path.
def Renderer.end_frame (r : Renderer) (present_result : PresentResult) :
    List DeviceOp × Except PanicMsg (Renderer × Bool) :=
  let so := r.current_sync_object
  let cb := r.command_buffers.getD r.current_frame 0
  let ops := [DeviceOp.recordCommands cb,
              DeviceOp.endCommandBuffer cb,
              DeviceOp.queueSubmit [so.image_available_semaphore]
                [so.queue_complete_semaphore] so.in_flight_fence cb]
  let pres := r.swapchain.present so.image_available_semaphore
    r.current_image_index present_result
  (ops ++ pres.1,
   match pres.2 with
   | Except.error e => Except.error e
   | Except.ok (sc, stale) => Except.ok ({ r with swapchain := sc }, stale))

-- renderer.rs:221-229.
def Renderer.recreate_swapchain (r : Renderer) (image_count : Nat) :
    Renderer × List DeviceOp :=
  ({ r with swapchain := ⟨false, image_count⟩ },
   [DeviceOp.waitIdle, DeviceOp.createSwapchain])

/-! ## Teardown, renderer.rs:232-248, swapchain.rs:189-198,
vkcontext.rs Drop, driven by the end of main (src/main.rs:185-188):
device_wait_idle, then the renderer drop (explicit body, then the
swapchain field), then the device context drop. -/

inductive DestroyOp where
  | deviceWaitIdle
  | destroySemaphore (s : Nat)
  | destroyFence (f : Nat)
  | freeCommandBuffer (cb : Nat)
  | destroyCommandPool
  | destroyImageView (v : Nat)
  | destroySwapchain
  | destroyDevice
  | destroySurface
  | destroyDebugMessenger
  | destroyInstance
deriving DecidableEq

-- renderer.rs:257-265.
def SyncObject.destroy (so : SyncObject) : List DestroyOp :=
  [DestroyOp.destroySemaphore so.image_available_semaphore,
   DestroyOp.destroySemaphore so.queue_complete_semaphore,
   DestroyOp.destroyFence so.in_flight_fence]

-- swapchain.rs:189-198.
def Swapchain.drop (s : Swapchain) : List DestroyOp :=
  (List.range s.image_count).map DestroyOp.destroyImageView
    ++ [DestroyOp.destroySwapchain]

-- renderer.rs:232-248 followed by the implicit drop of the swapchain field.
def Renderer.drop (r : Renderer) : List DestroyOp :=
  (r.sync_objects.map SyncObject.destroy).flatten
    ++ r.command_buffers.map DestroyOp.freeCommandBuffer
    ++ [DestroyOp.destroyCommandPool]
    ++ r.swapchain.drop

-- vkcontext.rs:286-297.
def vkContextDrop : List DestroyOp :=
  [DestroyOp.destroyDevice, DestroyOp.destroySurface,
   DestroyOp.destroyDebugMessenger, DestroyOp.destroyInstance]

-- main.rs:185-188 and scope exit: idle wait, renderer drop, context drop.
def shutdown (r : Renderer) : List DestroyOp :=
  DestroyOp.deviceWaitIdle :: (r.drop ++ vkContextDrop)

-- Host fence waits appearing in an operation trace.
def fenceWaits (ops : List DeviceOp) : List Nat :=
  ops.filterMap (fun op =>
    match op with
    | DeviceOp.waitFence f => some f
    | _ => none)

/-! ## Claims about the frame protocol -/

/-- Claim C1, refuted by evaluation: in the first frame after
Renderer::new, begin_frame waits on and resets slot 0's in_flight_fence
(handle 2), but next_sync_object has already advanced current_frame, so
end_frame's submit passes slot 1's fence (handle 12) and slot 1's
semaphores — not the slot whose primitives the Wait and reset steps
used. -/
theorem c1_end_frame_uses_next_slot_primitives :
    DeviceOp.waitFence 2 ∈ ((Renderer.new 3).begin_frame (AcquireResult.ok 0 false)).2.1
    ∧ DeviceOp.resetFence 2 ∈ ((Renderer.new 3).begin_frame (AcquireResult.ok 0 false)).2.1
    ∧ DeviceOp.acquireImage 0 ∈ ((Renderer.new 3).begin_frame (AcquireResult.ok 0 false)).2.1
    ∧ (((Renderer.new 3).begin_frame (AcquireResult.ok 0 false)).1.end_frame
        (PresentResult.ok false)).1 =
      [DeviceOp.recordCommands 1, DeviceOp.endCommandBuffer 1,
       DeviceOp.queueSubmit [10] [11] 12 1, DeviceOp.presentImage 10 0]
    ∧ (mkSyncObject 0).in_flight_fence = 2
    ∧ (mkSyncObject 1).in_flight_fence = 12
    ∧ (2 : Nat) ≠ 12 := by
  decide

/-- Claim C2, refuted by evaluation: in the first frame's end_frame the
present request waits on semaphore 10, which is slot 1's
image_available (acquire) semaphore, while the submit's signal list is
[11] (the queue_complete semaphore); presentation therefore does not
wait on the submit-complete signal. -/
theorem c2_present_waits_on_acquire_semaphore :
    DeviceOp.presentImage 10 0 ∈ (((Renderer.new 3).begin_frame (AcquireResult.ok 0 false)).1.end_frame
      (PresentResult.ok false)).1
    ∧ DeviceOp.queueSubmit [10] [11] 12 1 ∈ (((Renderer.new 3).begin_frame
      (AcquireResult.ok 0 false)).1.end_frame (PresentResult.ok false)).1
    ∧ (mkSyncObject 1).image_available_semaphore = 10
    ∧ (mkSyncObject 1).queue_complete_semaphore = 11
    ∧ (10 : Nat) ∉ ([11] : List Nat) := by
  decide

/-- Claim C3, refuted: whatever image index the acquire returns, the
only host fence wait a frame performs is the one on the current slot's
own in_flight_fence in begin_frame; end_frame performs none. There is
no image-in-use table: no per-image fence is ever consulted, waited on
or recorded. -/
theorem c3_no_image_in_use_table_wait (r : Renderer) (i : Nat) (sub : Bool)
    (p : PresentResult) :
    fenceWaits (r.begin_frame (AcquireResult.ok i sub)).2.1 =
      [r.current_sync_object.in_flight_fence]
    ∧ fenceWaits ((r.begin_frame (AcquireResult.ok i sub)).1.end_frame p).1 = [] := by
  exact ⟨rfl, rfl⟩

-- begin_frame never issues a device idle wait or a swapchain creation,
-- whatever the renderer state and the acquire outcome.
theorem begin_frame_never_recreates (r : Renderer) (a : AcquireResult) :
    DeviceOp.createSwapchain ∉ (r.begin_frame a).2.1
    ∧ DeviceOp.waitIdle ∉ (r.begin_frame a).2.1 := by
  cases a <;>
    simp [Renderer.begin_frame, Renderer.next_sync_object,
      Swapchain.acquire_next_image_index]

/-- Claim C4, amended: when acquire reports out-of-date, the dirty flag
becomes true and the frame is abandoned wholesale — the tick's trace is
just the fence wait and the acquire call, with no recording, submit or
present. However, the controller does not recreate the surface on the
next tick: the following begin_frame issues no idle wait and no
swapchain creation before acquiring again (recreate_swapchain exists
but is never invoked by the frame loop). -/
theorem c4_stale_aborts_frame_but_no_auto_recreate (r : Renderer) (a : AcquireResult) :
    (r.begin_frame AcquireResult.errOutOfDate).2.2 = true
    ∧ (r.begin_frame AcquireResult.errOutOfDate).1.swapchain.out_of_date = true
    ∧ (r.begin_frame AcquireResult.errOutOfDate).2.1 =
        [DeviceOp.waitFence r.current_sync_object.in_flight_fence,
         DeviceOp.acquireImage r.current_sync_object.image_available_semaphore]
    ∧ DeviceOp.createSwapchain ∉ ((r.begin_frame AcquireResult.errOutOfDate).1.begin_frame a).2.1
    ∧ DeviceOp.waitIdle ∉ ((r.begin_frame AcquireResult.errOutOfDate).1.begin_frame a).2.1 :=
  ⟨rfl, rfl, rfl,
   (begin_frame_never_recreates _ a).1,
   (begin_frame_never_recreates _ a).2⟩

/-- Claim C4 counterexample: concrete two-tick run from Renderer::new.
Tick 1's acquire reports out-of-date: the frame is skipped and the
dirty flag set. Tick 2 acquires again (acquireImage with slot 1's
semaphore, handle 10) without any preceding recreation — no idle wait
and no swapchain creation appear in its trace — refuting the part of
the claim that says the very next tick recreates the surface before
acquiring. -/
theorem c4_counterexample_no_recreate_before_next_acquire :
    ((Renderer.new 3).begin_frame AcquireResult.errOutOfDate).2.2 = true
    ∧ ((Renderer.new 3).begin_frame AcquireResult.errOutOfDate).1.swapchain.out_of_date = true
    ∧ DeviceOp.acquireImage 10 ∈
        (((Renderer.new 3).begin_frame AcquireResult.errOutOfDate).1.begin_frame
          (AcquireResult.ok 0 false)).2.1
    ∧ DeviceOp.createSwapchain ∉
        (((Renderer.new 3).begin_frame AcquireResult.errOutOfDate).1.begin_frame
          (AcquireResult.ok 0 false)).2.1
    ∧ DeviceOp.waitIdle ∉
        (((Renderer.new 3).begin_frame AcquireResult.errOutOfDate).1.begin_frame
          (AcquireResult.ok 0 false)).2.1 := by
  decide

/-- Claim C5, amended: only present treats non-stale device failures as
fatal (a panic); acquire swallows them. On any error other than
out-of-date, acquire_next_image_index returns None with the swapchain
state unchanged — no dirty flag, no panic, indistinguishable from a
skipped frame — while present with the same kind of error panics, and
the out-of-date condition sets the dirty flag in both. -/
theorem c5_acquire_swallows_non_stale_errors (s : Swapchain) (w i : Nat) :
    s.acquire_next_image_index AcquireResult.errOther = (s, none)
    ∧ (s.present w i PresentResult.errOther).2 =
        Except.error PanicMsg.failedToPresentSwapchain
    ∧ s.acquire_next_image_index AcquireResult.errOutOfDate =
        ({ s with out_of_date := true }, none)
    ∧ (s.present w i PresentResult.errOutOfDate).2 =
        Except.ok ({ s with out_of_date := true }, false) :=
  ⟨rfl, rfl, rfl, rfl⟩

/-- Claim C5 counterexample: a non-stale acquire failure on a fresh
renderer is not surfaced as a fatal hard failure — begin_frame returns
an ordinary frame-skip with the dirty flag still false and the
swapchain state unchanged, exactly as if nothing had gone wrong. -/
theorem c5_counterexample_acquire_error_not_fatal :
    (Swapchain.mk false 3).acquire_next_image_index AcquireResult.errOther =
      (Swapchain.mk false 3, none)
    ∧ ((Renderer.new 3).begin_frame AcquireResult.errOther).2.2 = true
    ∧ ((Renderer.new 3).begin_frame AcquireResult.errOther).1.swapchain.out_of_date = false := by
  decide

/-! ## Claims about teardown -/

/-- Claim C6, amended: after the blocking idle wait, each resource is
destroyed exactly once, but in the order synchronization semaphores and
fences first, then command-recording resources (command buffers, then
the pool), then the surface (image views, then the swapchain), then the
device context — not command-recording resources before the sync
objects. -/
theorem c6_shutdown_order_sync_before_command_resources (n : Nat) :
    shutdown (Renderer.new n) =
      DestroyOp.deviceWaitIdle :: DestroyOp.destroySemaphore 0 ::
      DestroyOp.destroySemaphore 1 :: DestroyOp.destroyFence 2 ::
      DestroyOp.destroySemaphore 10 :: DestroyOp.destroySemaphore 11 ::
      DestroyOp.destroyFence 12 ::
      ((List.range n).map DestroyOp.freeCommandBuffer
        ++ DestroyOp.destroyCommandPool ::
          ((List.range n).map DestroyOp.destroyImageView
            ++ [DestroyOp.destroySwapchain, DestroyOp.destroyDevice,
                DestroyOp.destroySurface, DestroyOp.destroyDebugMessenger,
                DestroyOp.destroyInstance]))
    ∧ (shutdown (Renderer.new n)).Nodup := by
  have hB : ((List.range n).map DestroyOp.freeCommandBuffer).Nodup :=
    List.Nodup.map (fun a b h => by injection h) (List.nodup_range n)
  have hC : ((List.range n).map DestroyOp.destroyImageView).Nodup :=
    List.Nodup.map (fun a b h => by injection h) (List.nodup_range n)
  have hr2 : (((List.range MAX_FRAMES_IN_FLIGHT).map mkSyncObject).map
      SyncObject.destroy).flatten
      = [DestroyOp.destroySemaphore 0, DestroyOp.destroySemaphore 1,
         DestroyOp.destroyFence 2, DestroyOp.destroySemaphore 10,
         DestroyOp.destroySemaphore 11, DestroyOp.destroyFence 12] := by
    rfl
  have heq : shutdown (Renderer.new n) =
      DestroyOp.deviceWaitIdle :: DestroyOp.destroySemaphore 0 ::
      DestroyOp.destroySemaphore 1 :: DestroyOp.destroyFence 2 ::
      DestroyOp.destroySemaphore 10 :: DestroyOp.destroySemaphore 11 ::
      DestroyOp.destroyFence 12 ::
      ((List.range n).map DestroyOp.freeCommandBuffer
        ++ DestroyOp.destroyCommandPool ::
          ((List.range n).map DestroyOp.destroyImageView
            ++ [DestroyOp.destroySwapchain, DestroyOp.destroyDevice,
                DestroyOp.destroySurface, DestroyOp.destroyDebugMessenger,
                DestroyOp.destroyInstance])) := by
    simp only [shutdown, Renderer.drop, Renderer.new, Swapchain.drop, vkContextDrop]
    rw [hr2]
    simp [List.append_assoc]
  refine ⟨heq, ?_⟩
  rw [heq]
  simp [List.nodup_cons, List.nodup_append, List.mem_append, List.mem_cons,
    List.mem_map, List.disjoint_left, hB, hC]

/-- Claim C6 counterexample: in the concrete shutdown sequence of a
renderer with three images, position 1 (right after the idle wait)
destroys a semaphore while the first command-buffer free only appears
at position 7 — synchronization objects are destroyed before
command-recording resources, refuting the claimed order. -/
theorem c6_counterexample_sync_destroyed_before_command_buffers :
    (shutdown (Renderer.new 3)).get? 1 = some (DestroyOp.destroySemaphore 0)
    ∧ (shutdown (Renderer.new 3)).get? 7 = some (DestroyOp.freeCommandBuffer 0)
    ∧ (1 : Nat) < 7 := by
  decide

/-! ## Claims about selection policy, scene graph and container -/

-- The format predicate of swapchain.rs:285-288 holds exactly at the
-- preferred format.
theorem format_pred_iff (f : SurfaceFormat) :
    (decide (f.format = FORMAT_B8G8R8A8_UNORM ∧
      f.color_space = COLOR_SPACE_SRGB_NONLINEAR) = true)
    ↔ f = preferredSurfaceFormat := by
  cases f
  simp [preferredSurfaceFormat, SurfaceFormat.mk.injEq]

theorem find_preferred_of_mem (l : List SurfaceFormat)
    (h : preferredSurfaceFormat ∈ l) :
    l.find? (fun f => decide (f.format = FORMAT_B8G8R8A8_UNORM ∧
      f.color_space = COLOR_SPACE_SRGB_NONLINEAR)) = some preferredSurfaceFormat := by
  induction l with
  | nil => cases h
  | cons a t ih =>
    by_cases ha : a = preferredSurfaceFormat
    · subst ha
      rfl
    · have hpa : decide (a.format = FORMAT_B8G8R8A8_UNORM ∧
          a.color_space = COLOR_SPACE_SRGB_NONLINEAR) = false := by
        rw [← Bool.not_eq_true]
        intro hcontra
        exact ha ((format_pred_iff a).mp hcontra)
      have hat : preferredSurfaceFormat ∈ t := by
        rcases List.mem_cons.mp h with h1 | h1
        · exact absurd h1.symm ha
        · exact h1
      rw [List.find?_cons, hpa]
      exact ih hat

theorem find_preferred_of_not_mem (l : List SurfaceFormat)
    (h : preferredSurfaceFormat ∉ l) :
    l.find? (fun f => decide (f.format = FORMAT_B8G8R8A8_UNORM ∧
      f.color_space = COLOR_SPACE_SRGB_NONLINEAR)) = none := by
  rw [List.find?_eq_none]
  intro x hx hpx
  exact h ((format_pred_iff x).mp hpx ▸ hx)

/-- Claim C7, amended: present-mode selection returns MAILBOX when
offered, else FIFO when offered, else IMMEDIATE whether or not the
device offers it (not necessarily an offered mode). Format selection
returns the preferred B8G8R8A8_UNORM/SRGB pair when it is reported, and
also when the single reported entry has the UNDEFINED format code;
otherwise the first reported format; an empty format list is a panic
(modelled as none). -/
theorem c7_selection_policy (modes : List PresentMode) (f0 : SurfaceFormat)
    (fs : List SurfaceFormat) :
    (PresentMode.mailbox ∈ modes →
      choose_swapchain_surface_present_mode modes = PresentMode.mailbox)
    ∧ (PresentMode.mailbox ∉ modes → PresentMode.fifo ∈ modes →
      choose_swapchain_surface_present_mode modes = PresentMode.fifo)
    ∧ (PresentMode.mailbox ∉ modes → PresentMode.fifo ∉ modes →
      choose_swapchain_surface_present_mode modes = PresentMode.immediate)
    ∧ ((f0 :: fs).length = 1 ∧ f0.format = FORMAT_UNDEFINED →
      choose_swapchain_surface_format (f0 :: fs) = some preferredSurfaceFormat)
    ∧ (¬ ((f0 :: fs).length = 1 ∧ f0.format = FORMAT_UNDEFINED) →
      preferredSurfaceFormat ∈ f0 :: fs →
      choose_swapchain_surface_format (f0 :: fs) = some preferredSurfaceFormat)
    ∧ (¬ ((f0 :: fs).length = 1 ∧ f0.format = FORMAT_UNDEFINED) →
      preferredSurfaceFormat ∉ f0 :: fs →
      choose_swapchain_surface_format (f0 :: fs) = some f0)
    ∧ choose_swapchain_surface_format [] = none := by
  refine ⟨?_, ?_, ?_, ?_, ?_, ?_, rfl⟩
  · intro h
    simp [choose_swapchain_surface_present_mode, h]
  · intro h1 h2
    simp [choose_swapchain_surface_present_mode, h1, h2]
  · intro h1 h2
    simp [choose_swapchain_surface_present_mode, h1, h2]
  · intro h
    simp [choose_swapchain_surface_format, h]
  · intro h1 h2
    simp only [choose_swapchain_surface_format, if_neg h1,
      find_preferred_of_mem _ h2, Option.getD_some]
  · intro h1 h2
    simp only [choose_swapchain_surface_format, if_neg h1,
      find_preferred_of_not_mem _ h2, Option.getD_none]

/-- Claim C7 witness: each branch of the selection policy at a concrete
input, including the amended one — a device offering only FIFO_RELAXED
gets IMMEDIATE, and a lone UNDEFINED-format entry gets the preferred
format. -/
theorem c7_selection_policy_witness :
    choose_swapchain_surface_present_mode [PresentMode.mailbox] = PresentMode.mailbox
    ∧ choose_swapchain_surface_present_mode [PresentMode.fifoRelaxed, PresentMode.fifo] =
        PresentMode.fifo
    ∧ choose_swapchain_surface_present_mode [PresentMode.fifoRelaxed] =
        PresentMode.immediate
    ∧ choose_swapchain_surface_format [⟨0, 0⟩] = some preferredSurfaceFormat
    ∧ choose_swapchain_surface_format [⟨30, 0⟩, ⟨44, 0⟩] = some preferredSurfaceFormat
    ∧ choose_swapchain_surface_format [⟨30, 0⟩, ⟨50, 0⟩] = some ⟨30, 0⟩
    ∧ choose_swapchain_surface_format [] = none :=
  ⟨(c7_selection_policy [PresentMode.mailbox] ⟨0, 0⟩ []).1 (by decide),
   (c7_selection_policy [PresentMode.fifoRelaxed, PresentMode.fifo] ⟨0, 0⟩ []).2.1
     (by decide) (by decide),
   (c7_selection_policy [PresentMode.fifoRelaxed] ⟨0, 0⟩ []).2.2.1
     (by decide) (by decide),
   (c7_selection_policy [] ⟨0, 0⟩ []).2.2.2.1 (by decide),
   (c7_selection_policy [] ⟨30, 0⟩ [⟨44, 0⟩]).2.2.2.2.1 (by decide) (by decide),
   (c7_selection_policy [] ⟨30, 0⟩ [⟨50, 0⟩]).2.2.2.2.2.1 (by decide) (by decide),
   (c7_selection_policy [] ⟨0, 0⟩ []).2.2.2.2.2.2⟩

/-- Claim C7 counterexample: with FIFO_RELAXED as the only offered
mode, the selection returns IMMEDIATE, which the device does not offer
— refuting the claim that the final fallback is a mode the device
actually offers. -/
theorem c7_counterexample_immediate_not_offered :
    choose_swapchain_surface_present_mode [PresentMode.fifoRelaxed] =
      PresentMode.immediate
    ∧ PresentMode.immediate ∉ [PresentMode.fifoRelaxed] := by
  decide

-- Tree used for the iterator evaluation: root 0 with children 1 and 2,
-- where child 1 itself has a child 3. Built with add_child only.
def c8Tree : RNode :=
  ((RNode.mk 0 []).add_child ((RNode.mk 1 []).add_child (RNode.mk 3 []))).add_child
    (RNode.mk 2 [])

/-- Claim C8, refuted by evaluation: on the four-node tree root 0 →
[1 → [3], 2], the iterator yields 0, 1, 3 and stops — node 2 is never
yielded — while a depth-first traversal yields 0, 1, 3, 2. The climbing
loop of the iterator overwrites its candidate with every higher
ancestor's sibling and always ends at the root test, which clears the
position. -/
theorem c8_iterator_misses_nodes :
    iterLabels c8Tree 10 = [0, 1, 3]
    ∧ specDFS c8Tree 10 = [0, 1, 3, 2]
    ∧ (2 : Nat) ∉ iterLabels c8Tree 10 := by
  exact ⟨rfl, rfl, by decide⟩

/-- Claim C9: Renderer::new creates every frame slot's in-flight fence
with the SIGNALED flag, so a first wait on any slot's completion fence
completes immediately instead of blocking forever, and in particular
the first begin_frame does not block. -/
theorem c9_fences_created_signaled (n i : Nat) (h : i < MAX_FRAMES_IN_FLIGHT) :
    (Renderer.new n).fence_signaled.getD i false = true
    ∧ (Renderer.new n).wait_would_block = false := by
  refine ⟨?_, rfl⟩
  have h2 : i < 2 := h
  interval_cases i <;> rfl

/-- Claim C9 witness: slot 1 of a three-image renderer. -/
theorem c9_fences_created_signaled_witness :
    1 < MAX_FRAMES_IN_FLIGHT
    ∧ ((Renderer.new 3).fence_signaled.getD 1 false = true
      ∧ (Renderer.new 3).wait_would_block = false) :=
  ⟨by decide, c9_fences_created_signaled 3 1 (by decide)⟩

/-- Claim C10, refuted by evaluation: push_first writes true — the
free marker — into the slot's free flag (container.rs:69), so the slot
stays free: on a fresh two-slot list, pushing 10 returns index 0 and
leaves both flags true, and the next push also returns index 0,
overwriting the first value instead of using a distinct slot. -/
theorem c10_push_first_leaves_slot_free :
    ((FreeList.with_capacity Nat 2).push_first 10).1 = 0
    ∧ ((FreeList.with_capacity Nat 2).push_first 10).2.free_indices = [true, true]
    ∧ (((FreeList.with_capacity Nat 2).push_first 10).2.push_first 20).1 = 0
    ∧ (((FreeList.with_capacity Nat 2).push_first 10).2.push_first 20).2.data =
        [some 20, none] := by
  decide

end Lise
